import Mathlib

/-!
Verification development for the rendering-resource management layer of the
`dirt` terrain viewer (Rust).  Definitions are shallow embeddings of the
Rust source under `src/`; `u32` arithmetic is modelled as `Nat` with explicit
`% 2 ^ 32` where overflow can occur, and `f32` quantities that no claim
computes with are carried as exact rationals (or as the integer value that
the source casts to `f32`).
-/

namespace Dirt

/-- Modelled from the spec: the module `src/game/render/buffer.rs` (declared
as `pub mod buffer;` in `render/mod.rs` and providing `BackedBuffer<T>`,
a.k.a. the spec's TypedGpuBuffer) is not present under `src/`.  Following
spec section 4.1 / section 3: the buffer owns `capacity`, `length ≤ capacity`,
and a CPU mirror region of `capacity` slots whose slots beyond `length` hold
stale bytes (modelled as `Option` with `none` for never-written slots). -/
structure BackedBuffer (α : Type) where
  capacity : Nat
  length : Nat
  mirror : List (Option α)
deriving DecidableEq

namespace BackedBuffer

variable {α : Type}

/-- Structural invariant from spec section 3: `length ≤ capacity` and the
mirror region spans exactly `capacity` elements. -/
def wf (b : BackedBuffer α) : Prop :=
  b.length ≤ b.capacity ∧ b.mirror.length = b.capacity

instance (b : BackedBuffer α) : Decidable b.wf := by
  unfold wf; infer_instance

/-- Modelled from the spec (4.1): `withData(initialElements)` creates a
buffer sized to the data and uploads it. -/
def with_data (data : List α) : BackedBuffer α :=
  { capacity := data.length, length := data.length, mirror := data.map some }

/-- Modelled from the spec (4.1): `withCapacity(n)` creates an empty buffer
reserved for `n` elements. -/
def with_capacity (n : Nat) : BackedBuffer α :=
  { capacity := n, length := 0, mirror := List.replicate n none }

/-- The buffer's valid element count (`BackedBuffer::len` in the source
callers, e.g. `buffer.tiles.len()` in `terrain.rs`). -/
def len (b : BackedBuffer α) : Nat := b.length

/-- The valid portion of the CPU mirror: its first `length` slots. -/
def contents (b : BackedBuffer α) : List (Option α) := b.mirror.take b.length

/-- Modelled from the spec (4.1): growth reallocates the device buffer to at
least the needed size (grow-only, double-or-exact) and preserves prior
contents; never shrinks. -/
def grow (b : BackedBuffer α) (needed : Nat) : BackedBuffer α :=
  let newCap := max (2 * b.capacity) needed
  { b with
    capacity := newCap
    mirror := b.mirror ++ List.replicate (newCap - b.capacity) none }

/-- Modelled from the spec (4.1): a batch-append push writes the element
into the CPU mirror at index `length` (growing first if capacity is
exhausted) and increments `length`. -/
def push (b : BackedBuffer α) (x : α) : BackedBuffer α :=
  let b2 := if b.capacity ≤ b.length then b.grow (b.length + 1) else b
  { b2 with mirror := b2.mirror.set b2.length (some x), length := b2.length + 1 }

/-- Modelled from the spec (4.1): `clear()` sets `length = 0` without
touching capacity or device bytes. -/
def clear (b : BackedBuffer α) : BackedBuffer α :=
  { b with length := 0 }

/-- Modelled from the spec (4.1): `replace(newElements)` reallocates
(grow-only, double-or-exact) and re-uploads when the data exceeds capacity,
otherwise overwrites in place and updates `length`. -/
def replace (b : BackedBuffer α) (xs : List α) : BackedBuffer α :=
  if b.capacity < xs.length then
    let newCap := max (2 * b.capacity) xs.length
    { capacity := newCap
      length := xs.length
      mirror := xs.map some ++ List.replicate (newCap - xs.length) none }
  else
    { b with length := xs.length, mirror := xs.map some ++ b.mirror.drop xs.length }

/-- Modelled from the spec (4.1): a whole `batchAppend` cursor scope — the
cursor pushes each element in order and then closes (the device flush on
close has no CPU-visible effect). -/
def batchAppend (b : BackedBuffer α) (xs : List α) : BackedBuffer α :=
  xs.foldl push b

theorem wf_with_data (data : List α) : (with_data data).wf := by
  constructor <;> simp [with_data]

theorem wf_with_capacity (n : Nat) : (with_capacity n : BackedBuffer α).wf := by
  constructor <;> simp [with_capacity]

theorem contents_with_data (data : List α) :
    (with_data data).contents = data.map some := by
  simp [with_data, contents]

theorem contents_with_capacity (n : Nat) :
    (with_capacity n : BackedBuffer α).contents = [] := by
  simp [with_capacity, contents]

theorem capacity_grow (b : BackedBuffer α) (n : Nat) :
    b.capacity ≤ (b.grow n).capacity ∧ n ≤ (b.grow n).capacity := by
  constructor
  · calc b.capacity ≤ 2 * b.capacity := by omega
    _ ≤ (b.grow n).capacity := le_max_left _ _
  · exact le_max_right _ _

theorem wf_grow (b : BackedBuffer α) (n : Nat) (h : b.wf) : (b.grow n).wf := by
  obtain ⟨h1, h2⟩ := h
  constructor
  · exact le_trans h1 (le_trans (by omega) (le_max_left (2 * b.capacity) n))
  · simp [grow, h2]
    omega

theorem length_grow (b : BackedBuffer α) (n : Nat) : (b.grow n).length = b.length := rfl

theorem contents_grow (b : BackedBuffer α) (n : Nat) (h : b.wf) :
    (b.grow n).contents = b.contents := by
  obtain ⟨h1, h2⟩ := h
  simp only [grow, contents]
  rw [List.take_append_of_le_length (by omega)]

/-- Setting a slot below the valid length and then taking one more element
splits as the old prefix followed by the new element. -/
theorem take_set_succ (l : List (Option α)) (n : Nat) (x : Option α) (h : n < l.length) :
    (l.set n x).take (n + 1) = l.take n ++ [x] := by
  induction l generalizing n with
  | nil => simp at h
  | cons a as ih =>
    cases n with
    | zero => simp
    | succ m =>
      simp only [List.set, List.take, List.cons_append]
      rw [ih m (by simpa using h)]

theorem wf_push (b : BackedBuffer α) (x : α) (h : b.wf) : (b.push x).wf := by
  obtain ⟨h1, h2⟩ := h
  by_cases hc : b.capacity ≤ b.length
  · have hg := wf_grow b (b.length + 1) ⟨h1, h2⟩
    obtain ⟨g1, g2⟩ := hg
    have hn : b.length + 1 ≤ (b.grow (b.length + 1)).capacity := (capacity_grow b _).2
    constructor
    · simpa [push, hc, length_grow] using hn
    · simp [push, hc, length_grow]
      simpa using g2
  · constructor
    · simp [push, hc]
      omega
    · simp [push, hc, h2]

theorem contents_push (b : BackedBuffer α) (x : α) (h : b.wf) :
    (b.push x).contents = b.contents ++ [some x] := by
  obtain ⟨h1, h2⟩ := h
  by_cases hc : b.capacity ≤ b.length
  · have hg2 : (b.grow (b.length + 1)).mirror.length = (b.grow (b.length + 1)).capacity :=
      (wf_grow b _ ⟨h1, h2⟩).2
    have hlt : b.length < (b.grow (b.length + 1)).mirror.length := by
      have := (capacity_grow b (b.length + 1)).2
      omega
    simp only [push, hc, if_true, contents, length_grow]
    rw [take_set_succ _ _ _ hlt]
    have := contents_grow b (b.length + 1) ⟨h1, h2⟩
    simp only [contents, length_grow] at this
    rw [this]
  · have hlt : b.length < b.mirror.length := by omega
    simp only [push, hc, if_false, contents]
    rw [take_set_succ _ _ _ hlt]

theorem wf_batchAppend (b : BackedBuffer α) (xs : List α) (h : b.wf) :
    (b.batchAppend xs).wf := by
  induction xs generalizing b with
  | nil => exact h
  | cons y ys ih => exact ih (b.push y) (wf_push b y h)

theorem contents_batchAppend (b : BackedBuffer α) (xs : List α) (h : b.wf) :
    (b.batchAppend xs).contents = b.contents ++ xs.map some := by
  induction xs generalizing b with
  | nil => simp [batchAppend]
  | cons y ys ih =>
    have hwf := wf_push b y h
    calc (b.batchAppend (y :: ys)).contents
        = ((b.push y).batchAppend ys).contents := rfl
      _ = (b.push y).contents ++ ys.map some := ih (b.push y) hwf
      _ = b.contents ++ (y :: ys).map some := by
          rw [contents_push b y h]; simp

theorem wf_clear (b : BackedBuffer α) (h : b.wf) : b.clear.wf := by
  obtain ⟨h1, h2⟩ := h
  exact ⟨Nat.zero_le _, h2⟩

theorem contents_clear (b : BackedBuffer α) : b.clear.contents = [] := by
  simp [clear, contents]

theorem wf_replace (b : BackedBuffer α) (xs : List α) (h : b.wf) :
    (b.replace xs).wf := by
  obtain ⟨h1, h2⟩ := h
  unfold replace
  by_cases hc : b.capacity < xs.length
  · simp only [hc, if_true]
    refine ⟨le_max_right _ _, ?_⟩
    have : xs.length ≤ max (2 * b.capacity) xs.length := le_max_right _ _
    simp
    try omega
  · simp only [hc, if_false]
    refine ⟨le_of_not_lt hc, ?_⟩
    simp [h2]
    omega

theorem contents_replace (b : BackedBuffer α) (xs : List α) (h : b.wf) :
    (b.replace xs).contents = xs.map some := by
  obtain ⟨h1, h2⟩ := h
  by_cases hc : b.capacity < xs.length
  · simp only [replace, hc, if_true, contents]
    rw [List.take_append_of_le_length (by simp)]
    simp
  · simp only [replace, hc, if_false, contents]
    rw [List.take_append_of_le_length (by simp)]
    simp

theorem length_batchAppend (b : BackedBuffer α) (xs : List α) (h : b.wf) :
    (b.batchAppend xs).length = b.length + xs.length := by
  have h1 := contents_batchAppend b xs h
  have h2 := wf_batchAppend b xs h
  obtain ⟨hb1, hb2⟩ := h2
  have e1 : (b.batchAppend xs).contents.length = (b.batchAppend xs).length := by
    simp [contents]
    omega
  have e2 : b.contents.length = b.length := by
    obtain ⟨hb1, hb2⟩ := h
    simp [contents]
    omega
  rw [h1] at e1
  simp at e1
  omega

end BackedBuffer

/-! ## Terrain buffers (`src/game/render/terrain.rs`) -/

/-- One iteration of the inner index-generation loop body of
`TerrainBuffer::new` (terrain.rs lines 60-66): `i = x + z * tile_size` and
six pushed indices, all in `u32` arithmetic. -/
def quadIndices (tile_size z x : Nat) : List Nat :=
  let i := (x + z * tile_size) % 2 ^ 32
  [i, (i + 1 + tile_size) % 2 ^ 32, (i + 1) % 2 ^ 32,
   i, (i + tile_size) % 2 ^ 32, (i + 1 + tile_size) % 2 ^ 32]

/-- The index data built by the double loop in `TerrainBuffer::new`
(terrain.rs lines 57-68): `for z in 0..tile_size-1 { for x in 0..tile_size-1
{ ... } }`.  Faithful for `tile_size ≥ 1` (at `tile_size = 0` the Rust `u32`
subtraction `tile_size - 1` wraps around instead). -/
def terrainIndexData (tile_size : Nat) : List Nat :=
  (List.range (tile_size - 1)).flatMap fun z =>
    (List.range (tile_size - 1)).flatMap fun x => quadIndices tile_size z x

/-- `TerrainData` uniform (terrain.rs lines 33-38); the `f32` fields are
carried as exact rationals, `tile_size` being the cast of the `u32` value. -/
structure TerrainData where
  tile_size : ℚ
  mountain_height : ℚ
  dune_height : ℚ
  spire_height : ℚ
deriving DecidableEq

/-- `TileInstance` (terrain.rs lines 17-19): a world-space tile origin.  The
source stores a `glam::Vec2` of `f32` obtained by casting two `u32`
expressions; we carry those `u32` values themselves. -/
structure TileInstance where
  position : Nat × Nat
deriving DecidableEq

/-- `TerrainBuffer` (terrain.rs lines 40-46).  The `binding` field stands
for the bind group created by `binder.bind(device, &terrain_data)`; bind
groups are modelled by opaque numeric identifiers. -/
structure TerrainBuffer where
  indices : BackedBuffer Nat
  tiles : BackedBuffer TileInstance
  terrain_data : BackedBuffer TerrainData
  binding : Nat
deriving DecidableEq

/-- `TerrainBuffer::new` (terrain.rs lines 49-90): builds the shared index
buffer, an empty 8-capacity tile-instance buffer and the one-element
`TerrainData` uniform, and binds the latter (`binder` is the identifier the
uniform binder stamps for this buffer). -/
def TerrainBuffer.new (binder : Nat) (tile_size : Nat)
    (mountain_height dune_height spire_height : ℚ) : TerrainBuffer :=
  { indices := BackedBuffer.with_data (terrainIndexData tile_size)
    tiles := BackedBuffer.with_capacity 8
    terrain_data := BackedBuffer.with_data
      [{ tile_size := (tile_size : ℚ)
         mountain_height := mountain_height
         dune_height := dune_height
         spire_height := spire_height }]
    binding := binder }

theorem length_terrainIndexData (tile_size : Nat) :
    (terrainIndexData tile_size).length = 6 * (tile_size - 1) ^ 2 := by
  simp [terrainIndexData, List.length_flatMap, Function.comp_def, quadIndices,
    List.map_const']
  ring

/-- Any value pushed by the index loop is congruent to a quantity bounded by
`x + z * tile_size + 1 + tile_size`, and such values stay below
`tile_size ^ 2` after the `u32` reduction. -/
theorem quad_mod_lt_sq (N t x z : Nat) (hx : x < N - 1) (hz : z < N - 1)
    (ht : t ≤ x + z * N + 1 + N) : t % 2 ^ 32 < N ^ 2 := by
  by_cases hbig : 2 ^ 16 ≤ N
  · have h1 : t % 2 ^ 32 < 2 ^ 32 := Nat.mod_lt _ (by norm_num)
    have h2 : 2 ^ 32 ≤ N ^ 2 := by
      calc (2 : Nat) ^ 32 = 2 ^ 16 * 2 ^ 16 := by norm_num
        _ ≤ N * N := Nat.mul_le_mul hbig hbig
        _ = N ^ 2 := (sq N).symm
    omega
  · push_neg at hbig
    obtain ⟨m, rfl⟩ : ∃ m, N = m + 2 := ⟨N - 2, by omega⟩
    have hx2 : x ≤ m := by omega
    have hz2 : z ≤ m := by omega
    have hzn : z * (m + 2) ≤ m * (m + 2) := Nat.mul_le_mul_right _ hz2
    have ht2 : t ≤ m * (m + 2) + m + m + 3 := by omega
    have hsq : m * (m + 2) + m + m + 3 < (m + 2) ^ 2 := by nlinarith
    have hm : m < 2 ^ 16 := by omega
    have htlt : t < 2 ^ 32 := by nlinarith
    rw [Nat.mod_eq_of_lt htlt]
    omega

theorem terrainIndexData_lt (N e : Nat) (he : e ∈ terrainIndexData N) :
    e < N ^ 2 := by
  simp only [terrainIndexData, List.mem_flatMap, List.mem_range] at he
  obtain ⟨z, hz, x, hx, he⟩ := he
  have hi : (x + z * N) % 2 ^ 32 ≤ x + z * N := Nat.mod_le _ _
  simp only [quadIndices, List.mem_cons, List.not_mem_nil, or_false] at he
  rcases he with rfl | rfl | rfl | rfl | rfl | rfl
  · exact quad_mod_lt_sq N _ x z hx hz (by omega)
  · exact quad_mod_lt_sq N _ x z hx hz (by omega)
  · exact quad_mod_lt_sq N _ x z hx hz (by omega)
  · exact quad_mod_lt_sq N _ x z hx hz (by omega)
  · exact quad_mod_lt_sq N _ x z hx hz (by omega)
  · exact quad_mod_lt_sq N _ x z hx hz (by omega)

/-! ## Render-pass command traces

`wgpu::RenderPass` recording is modelled as the list of commands issued on
the pass; pipelines and bind groups are opaque numeric identifiers. -/

/-- The render-pass commands issued by the terrain draw paths
(`pass.set_pipeline`, `pass.set_bind_group`, `pass.set_index_buffer`,
`pass.set_vertex_buffer`, `pass.draw_indexed`). -/
inductive GpuCmd where
  | setPipeline (pipeline : Nat)
  | setBindGroup (slot : Nat) (group : Nat)
  | setIndexBuffer
  | setVertexBuffer (slot : Nat)
  | drawIndexed (indexCount : Nat) (baseVertex : Nat) (instanceCount : Nat)
deriving DecidableEq

/-- `TerrainPipeline` (terrain.rs lines 93-96): the two compiled pipelines,
as opaque identifiers. -/
structure TerrainPipeline where
  triplanar_pipeline : Nat
  debug_pipeline : Nat
deriving DecidableEq

namespace TerrainPipeline

/-- `TerrainPipeline::draw` (terrain.rs lines 178-196): early-returns when
no tile instance is buffered, otherwise records the shaded draw. -/
def draw (p : TerrainPipeline) (camera : Nat) (textures : Nat)
    (buffer : TerrainBuffer) : List GpuCmd :=
  if buffer.tiles.len = 0 then []
  else
    [GpuCmd.setPipeline p.triplanar_pipeline,
     GpuCmd.setBindGroup 0 buffer.binding,
     GpuCmd.setBindGroup 1 camera,
     GpuCmd.setBindGroup 2 textures,
     GpuCmd.setIndexBuffer,
     GpuCmd.setVertexBuffer 0,
     GpuCmd.drawIndexed buffer.indices.len 0 buffer.tiles.len]

/-- `TerrainPipeline::debug` (terrain.rs lines 198-214): like `draw` but on
the debug pipeline and without the texture-array bind group. -/
def debug (p : TerrainPipeline) (camera : Nat) (buffer : TerrainBuffer) :
    List GpuCmd :=
  if buffer.tiles.len = 0 then []
  else
    [GpuCmd.setPipeline p.debug_pipeline,
     GpuCmd.setBindGroup 0 buffer.binding,
     GpuCmd.setBindGroup 1 camera,
     GpuCmd.setIndexBuffer,
     GpuCmd.setVertexBuffer 0,
     GpuCmd.drawIndexed buffer.indices.len 0 buffer.tiles.len]

end TerrainPipeline

/-! ## World terrain data (`src/game/world/terrain.rs`) -/

/-- `TerrainTile` (world/terrain.rs lines 44-47): `id` is a `(u32, u32)`
pair. -/
structure TerrainTile where
  id : Nat × Nat
deriving DecidableEq

/-- `Terrain` (world/terrain.rs lines 3-11); `f32` heights as rationals. -/
structure Terrain where
  mountain_height : ℚ
  dune_height : ℚ
  spire_height : ℚ
  size : Nat
  tile_size : Nat
  tiles : List TerrainTile
deriving DecidableEq

/-- The world origin `update_terrain` computes for a tile (render/mod.rs
lines 353-356): `(tile.id.0 * (tile_size - 1), tile.id.1 * (tile_size - 1))`
in `u32` arithmetic, then cast to `f32`; we carry the `u32` values. -/
def tileWorldOrigin (tile_size : Nat) (tile : TerrainTile) : Nat × Nat :=
  ((tile.id.1 * (tile_size - 1)) % 2 ^ 32, (tile.id.2 * (tile_size - 1)) % 2 ^ 32)

/-- The tile-qualification test hard-coded in `update_terrain`
(render/mod.rs lines 350-352): `let range = 0..2;
range.contains(&tile.id.0) && range.contains(&tile.id.1)`. -/
def tileInRange (tile : TerrainTile) : Prop :=
  tile.id.1 < 2 ∧ tile.id.2 < 2

instance (tile : TerrainTile) : Decidable (tileInRange tile) := by
  unfold tileInRange; infer_instance

/-- The body of `Renderer::update_terrain` acting on the selected terrain
buffer (render/mod.rs lines 347-359): clear the tile-instance buffer, then
batch-push one instance per tile whose id lies in the hard-coded
`0..2 × 0..2` window. -/
def updateTerrainBuffer (buffer : TerrainBuffer) (terrain : Terrain) :
    TerrainBuffer :=
  let tiles0 := buffer.tiles.clear
  let tiles1 := terrain.tiles.foldl
    (fun acc tile =>
      if tileInRange tile then
        acc.push { position := tileWorldOrigin terrain.tile_size tile }
      else acc)
    tiles0
  { buffer with tiles := tiles1 }

/-! ## Cameras (`src/game/world/camera.rs`)

`glam::Mat4`/`glam::Vec4` are modelled over exact rationals; `glam` stores a
matrix as four column vectors and multiplies column-wise. -/

structure Vec4 where
  x : ℚ
  y : ℚ
  z : ℚ
  w : ℚ
deriving DecidableEq

structure Mat4 where
  xAxis : Vec4
  yAxis : Vec4
  zAxis : Vec4
  wAxis : Vec4
deriving DecidableEq

namespace Vec4

def smul (c : ℚ) (v : Vec4) : Vec4 :=
  { x := c * v.x, y := c * v.y, z := c * v.z, w := c * v.w }

def add (a b : Vec4) : Vec4 :=
  { x := a.x + b.x, y := a.y + b.y, z := a.z + b.z, w := a.w + b.w }

end Vec4

namespace Mat4

/-- `glam::Mat4::IDENTITY`. -/
def identity : Mat4 :=
  { xAxis := { x := 1, y := 0, z := 0, w := 0 }
    yAxis := { x := 0, y := 1, z := 0, w := 0 }
    zAxis := { x := 0, y := 0, z := 1, w := 0 }
    wAxis := { x := 0, y := 0, z := 0, w := 1 } }

/-- `glam` matrix-vector product: the linear combination of the columns. -/
def mulVec4 (m : Mat4) (v : Vec4) : Vec4 :=
  (Vec4.smul v.x m.xAxis).add
    ((Vec4.smul v.y m.yAxis).add
      ((Vec4.smul v.z m.zAxis).add (Vec4.smul v.w m.wAxis)))

/-- `glam` matrix product, column by column. -/
def mul (a b : Mat4) : Mat4 :=
  { xAxis := a.mulVec4 b.xAxis
    yAxis := a.mulVec4 b.yAxis
    zAxis := a.mulVec4 b.zAxis
    wAxis := a.mulVec4 b.wAxis }

/-- `glam::Mat4::orthographic_rh(left, right, bottom, top, near, far)`:
columns `(2·rw, 0, 0, 0)`, `(0, 2·rh, 0, 0)`, `(0, 0, r, 0)`,
`(-(l+r)·rw, -(t+b)·rh, r·near, 1)` with `rw = 1/(right-left)`,
`rh = 1/(top-bottom)`, `r = 1/(near-far)`. -/
def orthographic_rh (left right bottom top near far : ℚ) : Mat4 :=
  let rcp_width := 1 / (right - left)
  let rcp_height := 1 / (top - bottom)
  let r := 1 / (near - far)
  { xAxis := { x := rcp_width + rcp_width, y := 0, z := 0, w := 0 }
    yAxis := { x := 0, y := rcp_height + rcp_height, z := 0, w := 0 }
    zAxis := { x := 0, y := 0, z := r, w := 0 }
    wAxis := { x := -(left + right) * rcp_width
               y := -(top + bottom) * rcp_height
               z := r * near
               w := 1 } }

end Mat4

/-- `Camera2d` (camera.rs lines 9-12). -/
structure Camera2d where
  width : ℚ
  height : ℚ
deriving DecidableEq

namespace Camera2d

/-- `Camera2d::view` (camera.rs lines 26-28). -/
def view (_c : Camera2d) : Mat4 := Mat4.identity

/-- `Camera2d::proj` (camera.rs lines 30-32):
`orthographic_rh(0.0, width, 0.0, height, 0.0, 1.0)`. -/
def proj (c : Camera2d) : Mat4 :=
  Mat4.orthographic_rh 0 c.width 0 c.height 0 1

/-- `Camera::view_proj` default method (camera.rs lines 4-6):
`proj() * view()`. -/
def view_proj (c : Camera2d) : Mat4 := (c.proj).mul (c.view)

end Camera2d

/-- The point a world position `(px, py)` on the UI plane is carried to in
normalized device coordinates: the view-projection applied to the
homogeneous point `(px, py, 0, 1)`, keeping `(x, y)` (the w component of an
orthographic transform is 1, so no perspective divide occurs). -/
def ndcOfPoint (m : Mat4) (px py : ℚ) : ℚ × ℚ :=
  let v := m.mulVec4 { x := px, y := py, z := 0, w := 1 }
  (v.x, v.y)

/-- In wgpu's coordinate system the framebuffer's top-left corner is NDC
`(-1, 1)` and the bottom-right corner is NDC `(1, -1)` (NDC y points up,
framebuffer y points down). -/
def ndcTopLeft : ℚ × ℚ := (-1, 1)

def ndcBottomRight : ℚ × ℚ := (1, -1)

def ndcBottomLeft : ℚ × ℚ := (-1, -1)

def ndcTopRight : ℚ × ℚ := (1, 1)

/-! ## Frame orchestrator (`src/game/render/mod.rs`) -/

/-- Modelled from the spec: the text subsystem source
(`src/game/render/font.rs`, declared as `pub mod font;`) is not under
`src/`.  Per spec section 4.5 a buffered text holds the quad geometry
generated from its string; the geometry itself is opaque to every claim
here, so a `TextBuffer` is represented by the string it was generated
from. -/
structure TextBuffer where
  text : String
deriving DecidableEq

/-- `wgpu::SurfaceError` variants as of the `wgpu` version used by
`Renderer::render`. -/
inductive SurfaceError where
  | timeout
  | outdated
  | lost
  | outOfMemory
  | other
deriving DecidableEq

/-- The observable side effects of one `Renderer::render` call, in program
order.  Pass-local terrain commands are embedded via `terrainCmd`; drawing a
buffered text is the opaque `drawText` call on `TextPipeline` (its interior
lives in the missing `font.rs`). -/
inductive RenderEffect where
  | configureSurface (extent : Nat × Nat)
  | acquireFrame
  | logError
  | appExit
  | writeUiCamera
  | writeMainCamera
  | beginRenderPass (colorLoadIsClear : Bool) (hasDepthAttachment : Bool)
  | terrainCmd (c : GpuCmd)
  | drawText (i : Nat)
  | endRenderPass
  | submit
  | present
deriving DecidableEq

/-- The `Renderer` state (render/mod.rs lines 31-52) restricted to the
fields the claims observe.  Surface/depth textures are reduced to their
extents and an opaque depth format identifier; bind groups are numeric
identifiers. -/
structure RendererState where
  is_surface_configured : Bool
  config_width : Nat
  config_height : Nat
  surface_extent : Nat × Nat
  depth_extent : Nat × Nat
  depth_format : Nat
  terrain_pipeline : TerrainPipeline
  terrain_buffers : List TerrainBuffer
  text_buffers : List TextBuffer
  main_camera_binding : Nat
  ui_camera_binding : Nat
  terrain_texture_binding : Nat
deriving DecidableEq

namespace RendererState

/-- `Renderer::resize` (render/mod.rs lines 211-232): mark the surface
configured, clamp the extent to at least 1×1, reconfigure the surface, and
recreate the depth texture at the new extent with the format read back from
the old depth texture. -/
def resize (st : RendererState) (width height : Nat) : RendererState :=
  let w := max width 1
  let h := max height 1
  { st with
    is_surface_configured := true
    config_width := w
    config_height := h
    surface_extent := (w, h)
    depth_extent := (w, h)
    depth_format := st.depth_format }

/-- The draw commands the world pass records for one terrain buffer
(render/mod.rs lines 292-304): debug mode uses `TerrainPipeline::debug`,
otherwise `TerrainPipeline::draw` with the terrain texture binding. -/
def terrainPassCmds (st : RendererState) (debug_mode_active : Bool)
    (buffer : TerrainBuffer) : List GpuCmd :=
  if debug_mode_active then
    st.terrain_pipeline.debug st.main_camera_binding buffer
  else
    st.terrain_pipeline.draw st.main_camera_binding
      st.terrain_texture_binding buffer

/-- `Renderer::render` (render/mod.rs lines 234-331).  The surface
acquisition result is an input (the environment's answer to
`surface.get_current_texture()`); the function returns the successor state
and the effect trace.  On `Outdated` the frame is dropped; on any other
acquisition error the error is logged and `app.exit()` is signalled; on
success both camera uniforms are written, then the world pass (color and
depth cleared) draws every registered terrain, then the UI pass (color
loaded, no depth) draws every buffered text, then the commands are
submitted and the frame is presented. -/
def render (st : RendererState) (acquire : Except SurfaceError Unit)
    (debug_mode_active : Bool) : RendererState × List RenderEffect :=
  let stc :=
    if st.is_surface_configured then st
    else { st with is_surface_configured := true,
                   surface_extent := (st.config_width, st.config_height) }
  let pre : List RenderEffect :=
    if st.is_surface_configured then []
    else [RenderEffect.configureSurface (st.config_width, st.config_height)]
  match acquire with
  | Except.error SurfaceError.outdated =>
      (stc, pre ++ [RenderEffect.acquireFrame])
  | Except.error _ =>
      (stc, pre ++ [RenderEffect.acquireFrame, RenderEffect.logError,
                    RenderEffect.appExit])
  | Except.ok _ =>
      (stc,
        pre ++ [RenderEffect.acquireFrame,
                RenderEffect.writeUiCamera,
                RenderEffect.writeMainCamera,
                RenderEffect.beginRenderPass true true]
          ++ (stc.terrain_buffers.flatMap fun buffer =>
                (terrainPassCmds stc debug_mode_active buffer).map
                  RenderEffect.terrainCmd)
          ++ [RenderEffect.endRenderPass,
              RenderEffect.beginRenderPass false false]
          ++ ((List.range stc.text_buffers.length).map RenderEffect.drawText)
          ++ [RenderEffect.endRenderPass, RenderEffect.submit,
              RenderEffect.present])

/-- `Renderer::buffer_terrain` (render/mod.rs lines 333-344): the new id is
the current registry length; a fresh `TerrainBuffer` is pushed.  The bind
group stamped for the new buffer is identified by the registry index. -/
def buffer_terrain (st : RendererState) (terrain : Terrain) :
    RendererState × Nat :=
  let id := st.terrain_buffers.length
  let buffer := TerrainBuffer.new id terrain.tile_size terrain.mountain_height
    terrain.dune_height terrain.spire_height
  ({ st with terrain_buffers := st.terrain_buffers ++ [buffer] }, id)

/-- `Renderer::update_terrain` (render/mod.rs lines 346-360).  The Rust
code indexes `self.terrain_buffers[terrain_id]`, which panics when
`terrain_id` is out of bounds; the panic is modelled as `none`. -/
def update_terrain (st : RendererState) (terrain_id : Nat)
    (terrain : Terrain) : Option RendererState :=
  match st.terrain_buffers[terrain_id]? with
  | none => none
  | some buffer =>
      some { st with
        terrain_buffers :=
          st.terrain_buffers.set terrain_id (updateTerrainBuffer buffer terrain) }

/-- `Renderer::buffer_text` (render/mod.rs lines 362-370): the new id is the
current registry length; the text buffer built by the text pipeline is
pushed. -/
def buffer_text (st : RendererState) (text : String) :
    RendererState × Nat :=
  let id := st.text_buffers.length
  ({ st with text_buffers := st.text_buffers ++ [{ text := text }] }, id)

/-- `Renderer::update_text` (render/mod.rs lines 372-374).  The Rust code
indexes `self.text_buffers[text_id]`, which panics when `text_id` is out of
bounds; the panic is modelled as `none`.  The regenerated geometry is the
buffer rebuilt from the new string. -/
def update_text (st : RendererState) (text_id : Nat) (text : String) :
    Option RendererState :=
  match st.text_buffers[text_id]? with
  | none => none
  | some _ =>
      some { st with
        text_buffers := st.text_buffers.set text_id { text := text } }

end RendererState

/-- A concrete renderer state with one registered terrain and one buffered
text, used to evaluate the embedding on closed inputs. -/
def sampleRenderer : RendererState :=
  { is_surface_configured := true
    config_width := 640
    config_height := 480
    surface_extent := (640, 480)
    depth_extent := (640, 480)
    depth_format := 0
    terrain_pipeline := { triplanar_pipeline := 0, debug_pipeline := 1 }
    terrain_buffers := [TerrainBuffer.new 0 3 1 1 1]
    text_buffers := [{ text := "Debug" }]
    main_camera_binding := 2
    ui_camera_binding := 3
    terrain_texture_binding := 4 }

/-- A concrete world terrain with tiles inside and outside the hard-coded
`0..2 × 0..2` window. -/
def sampleTerrain : Terrain :=
  { mountain_height := 1
    dune_height := 1
    spire_height := 1
    size := 3
    tile_size := 3
    tiles := [{ id := (0, 0) }, { id := (2, 0) }, { id := (1, 1) }] }

/-! ## Claims -/

/-- Claim C1: for every tile size `N ≥ 1`, the index buffer computed when a
terrain is registered (`TerrainBuffer::new`) contains exactly
`6 * (N - 1)^2` indices, and every index in it is strictly less than
`N^2`. -/
theorem terrain_index_buffer_size_and_bound (binder N : Nat) (mh dh sh : ℚ)
    (h : 1 ≤ N) :
    (TerrainBuffer.new binder N mh dh sh).indices.len = 6 * (N - 1) ^ 2
    ∧ ∀ e : Nat,
        some e ∈ (TerrainBuffer.new binder N mh dh sh).indices.contents →
          e < N ^ 2 := by
  constructor
  · show (BackedBuffer.with_data (terrainIndexData N)).len = _
    simp [BackedBuffer.len, BackedBuffer.with_data, length_terrainIndexData]
  · intro e he
    rw [show (TerrainBuffer.new binder N mh dh sh).indices
        = BackedBuffer.with_data (terrainIndexData N) from rfl,
      BackedBuffer.contents_with_data] at he
    simp only [List.mem_map, Option.some.injEq] at he
    obtain ⟨a, ha, rfl⟩ := he
    exact terrainIndexData_lt N a ha

theorem terrain_index_buffer_size_and_bound_witness :
    1 ≤ 4
    ∧ ((TerrainBuffer.new 0 4 0 0 0).indices.len = 6 * (4 - 1) ^ 2
      ∧ ∀ e : Nat,
          some e ∈ (TerrainBuffer.new 0 4 0 0 0).indices.contents →
            e < 4 ^ 2) :=
  ⟨by norm_num, terrain_index_buffer_size_and_bound 0 4 0 0 0 (by norm_num)⟩

/-- Folding the conditional batch-push of `update_terrain` over a tile list
appends exactly the qualifying tiles' instances, in order, and preserves
the buffer invariant. -/
theorem foldl_push_in_range (tiles : List TerrainTile) (ts : Nat)
    (b : BackedBuffer TileInstance) (h : b.wf) :
    (tiles.foldl
        (fun acc tile =>
          if tileInRange tile then
            acc.push { position := tileWorldOrigin ts tile }
          else acc) b).wf
    ∧ (tiles.foldl
        (fun acc tile =>
          if tileInRange tile then
            acc.push { position := tileWorldOrigin ts tile }
          else acc) b).contents
      = b.contents
        ++ (tiles.filter fun tile => decide (tileInRange tile)).map
            (fun tile => some { position := tileWorldOrigin ts tile }) := by
  induction tiles generalizing b with
  | nil => exact ⟨h, by simp⟩
  | cons t ts2 ih =>
    by_cases ht : tileInRange t
    · have hwf := BackedBuffer.wf_push b { position := tileWorldOrigin ts t } h
      obtain ⟨ih1, ih2⟩ := ih (b.push { position := tileWorldOrigin ts t }) hwf
      refine ⟨by simpa [ht] using ih1, ?_⟩
      simp only [List.foldl_cons, ht, if_true]
      rw [ih2, BackedBuffer.contents_push b _ h]
      simp [ht]
    · obtain ⟨ih1, ih2⟩ := ih b h
      refine ⟨by simpa [ht] using ih1, ?_⟩
      simp only [List.foldl_cons, ht, if_false]
      rw [ih2]
      simp [ht]

/-- Claim C2 counterexample: `update_terrain` does not append one instance
per supplied tile — the tile with id `(2, 0)` is dropped by the hard-coded
`0..2` range check, so the resulting instance list is empty rather than a
one-element list. -/
theorem update_terrain_filters_counterexample :
    (updateTerrainBuffer (TerrainBuffer.new 0 3 0 0 0)
        { mountain_height := 0, dune_height := 0, spire_height := 0,
          size := 3, tile_size := 3, tiles := [{ id := (2, 0) }] }).tiles.contents
      ≠ ([{ id := (2, 0) }] : List TerrainTile).map
          (fun tile => some (TileInstance.mk (tileWorldOrigin 3 tile))) := by
  decide

/-- Claim C2 (amended): for every registered terrain id, `update_terrain`
clears that terrain's instance buffer (discarding prior contents) and then
appends, in order, one `(worldX, worldZ)` origin instance per supplied tile
whose id lies in the hard-coded `0..2 × 0..2` window — the subsystem itself
filters the tiles with this window rather than leaving the policy to the
caller. -/
theorem update_terrain_clears_and_appends_in_window (st : RendererState)
    (terrain_id : Nat) (terrain : Terrain) (buffer : TerrainBuffer)
    (hbuf : st.terrain_buffers[terrain_id]? = some buffer)
    (hwf : buffer.tiles.wf) :
    RendererState.update_terrain st terrain_id terrain
      = some { st with
          terrain_buffers :=
            st.terrain_buffers.set terrain_id (updateTerrainBuffer buffer terrain) }
    ∧ (updateTerrainBuffer buffer terrain).tiles.contents
      = (terrain.tiles.filter fun tile => decide (tileInRange tile)).map
          (fun tile =>
            some { position := tileWorldOrigin terrain.tile_size tile }) := by
  constructor
  · simp [RendererState.update_terrain, hbuf]
  · have h0 := BackedBuffer.wf_clear buffer.tiles hwf
    obtain ⟨-, h2⟩ := foldl_push_in_range terrain.tiles terrain.tile_size
      buffer.tiles.clear h0
    simpa [updateTerrainBuffer, BackedBuffer.contents_clear] using h2

theorem update_terrain_clears_and_appends_in_window_witness :
    sampleRenderer.terrain_buffers[0]? = some (TerrainBuffer.new 0 3 1 1 1)
    ∧ (TerrainBuffer.new 0 3 1 1 1).tiles.wf
    ∧ (RendererState.update_terrain sampleRenderer 0 sampleTerrain
        = some { sampleRenderer with
            terrain_buffers :=
              sampleRenderer.terrain_buffers.set 0
                (updateTerrainBuffer (TerrainBuffer.new 0 3 1 1 1) sampleTerrain) }
      ∧ (updateTerrainBuffer (TerrainBuffer.new 0 3 1 1 1) sampleTerrain).tiles.contents
        = (sampleTerrain.tiles.filter fun tile => decide (tileInRange tile)).map
            (fun tile =>
              some { position := tileWorldOrigin sampleTerrain.tile_size tile })) :=
  ⟨by decide, by decide,
    update_terrain_clears_and_appends_in_window sampleRenderer 0 sampleTerrain
      (TerrainBuffer.new 0 3 1 1 1) (by decide) (by decide)⟩

/-- Recognizes an indexed draw command. -/
def GpuCmd.isDrawIndexed : GpuCmd → Bool
  | GpuCmd.drawIndexed _ _ _ => true
  | _ => false

/-- Claim C3: with zero buffered instances both terrain draw entry points
return without recording anything; with `k > 0` instances the shaded path
binds the terrain uniform, camera and texture groups at slots 0, 1, 2 and
issues exactly one indexed, instanced draw with index count equal to the
shared index buffer's length and instance count `k`, and the debug path
does the same except that it binds no slot-2 (texture) group. -/
theorem terrain_draw_modes_spec (p : TerrainPipeline) (camera textures : Nat)
    (buffer : TerrainBuffer) :
    (buffer.tiles.len = 0 →
      p.draw camera textures buffer = [] ∧ p.debug camera buffer = [])
    ∧ (0 < buffer.tiles.len →
      (p.draw camera textures buffer).countP GpuCmd.isDrawIndexed = 1
      ∧ GpuCmd.drawIndexed buffer.indices.len 0 buffer.tiles.len
          ∈ p.draw camera textures buffer
      ∧ GpuCmd.setBindGroup 0 buffer.binding ∈ p.draw camera textures buffer
      ∧ GpuCmd.setBindGroup 1 camera ∈ p.draw camera textures buffer
      ∧ GpuCmd.setBindGroup 2 textures ∈ p.draw camera textures buffer
      ∧ (p.debug camera buffer).countP GpuCmd.isDrawIndexed = 1
      ∧ GpuCmd.drawIndexed buffer.indices.len 0 buffer.tiles.len
          ∈ p.debug camera buffer
      ∧ GpuCmd.setBindGroup 0 buffer.binding ∈ p.debug camera buffer
      ∧ GpuCmd.setBindGroup 1 camera ∈ p.debug camera buffer
      ∧ ∀ g : Nat, GpuCmd.setBindGroup 2 g ∉ p.debug camera buffer) := by
  constructor
  · intro h
    simp [TerrainPipeline.draw, TerrainPipeline.debug, h]
  · intro h
    have hne : buffer.tiles.len ≠ 0 := Nat.pos_iff_ne_zero.mp h
    simp [TerrainPipeline.draw, TerrainPipeline.debug, hne, List.countP_cons,
      GpuCmd.isDrawIndexed]

theorem terrain_draw_modes_spec_witness :
    (TerrainPipeline.draw ⟨0, 1⟩ 4 5 (TerrainBuffer.new 9 2 0 0 0) = []
      ∧ TerrainPipeline.debug ⟨0, 1⟩ 4 (TerrainBuffer.new 9 2 0 0 0) = [])
    ∧ GpuCmd.setBindGroup 2 5
        ∈ TerrainPipeline.draw ⟨0, 1⟩ 4 5
            { TerrainBuffer.new 9 2 0 0 0 with
              tiles := (TerrainBuffer.new 9 2 0 0 0).tiles.batchAppend
                [{ position := (0, 0) }] } := by
  refine ⟨(terrain_draw_modes_spec ⟨0, 1⟩ 4 5 (TerrainBuffer.new 9 2 0 0 0)).1
    (by decide), ?_⟩
  have h := (terrain_draw_modes_spec ⟨0, 1⟩ 4 5
    { TerrainBuffer.new 9 2 0 0 0 with
      tiles := (TerrainBuffer.new 9 2 0 0 0).tiles.batchAppend
        [{ position := (0, 0) }] }).2 (by decide)
  exact h.2.2.2.2.1

/-- Normal form of `render` on an acquisition failure: the optional lazy
surface configuration, one acquire, and — except for `Outdated` — the error
report and the exit signal. -/
theorem render_error_eq (st : RendererState) (e : SurfaceError) (d : Bool) :
    RendererState.render st (Except.error e) d
      = ((if st.is_surface_configured then st
          else { st with is_surface_configured := true,
                         surface_extent := (st.config_width, st.config_height) }),
         (if st.is_surface_configured then ([] : List RenderEffect)
          else [RenderEffect.configureSurface (st.config_width, st.config_height)])
          ++ (if e = SurfaceError.outdated then [RenderEffect.acquireFrame]
              else [RenderEffect.acquireFrame, RenderEffect.logError,
                    RenderEffect.appExit])) := by
  cases e <;> simp [RendererState.render]

/-- Claim C4: an `Outdated` acquisition failure skips the frame with no
state torn down — registries, depth target and camera bindings are
untouched, the renderer stays configured for the next frame, and no camera
write, pass, submit, present, error report or exit is recorded; every other
acquisition error is reported and triggers application exit, and in both
cases acquisition is attempted exactly once (never retried). -/
theorem render_acquire_failure_policy (st : RendererState) (e : SurfaceError)
    (d : Bool) :
    (e = SurfaceError.outdated →
      ((RendererState.render st (Except.error e) d).1.terrain_buffers
          = st.terrain_buffers
        ∧ (RendererState.render st (Except.error e) d).1.text_buffers
          = st.text_buffers
        ∧ (RendererState.render st (Except.error e) d).1.depth_extent
          = st.depth_extent
        ∧ (RendererState.render st (Except.error e) d).1.depth_format
          = st.depth_format
        ∧ (RendererState.render st (Except.error e) d).1.is_surface_configured
          = true
        ∧ (RendererState.render st (Except.error e) d).2.count
            RenderEffect.acquireFrame = 1
        ∧ ∀ c ∈ (RendererState.render st (Except.error e) d).2,
            c = RenderEffect.configureSurface (st.config_width, st.config_height)
            ∨ c = RenderEffect.acquireFrame))
    ∧ (e ≠ SurfaceError.outdated →
      (RenderEffect.logError ∈ (RendererState.render st (Except.error e) d).2
        ∧ RenderEffect.appExit ∈ (RendererState.render st (Except.error e) d).2
        ∧ (RendererState.render st (Except.error e) d).2.count
            RenderEffect.acquireFrame = 1
        ∧ ∀ c ∈ (RendererState.render st (Except.error e) d).2,
            c = RenderEffect.configureSurface (st.config_width, st.config_height)
            ∨ c = RenderEffect.acquireFrame
            ∨ c = RenderEffect.logError
            ∨ c = RenderEffect.appExit)) := by
  rw [render_error_eq]
  constructor
  · intro he
    subst he
    by_cases hc : st.is_surface_configured <;> simp [hc]
  · intro he
    by_cases hc : st.is_surface_configured <;> simp [hc, he]

theorem render_acquire_failure_policy_witness :
    (RendererState.render sampleRenderer
        (Except.error SurfaceError.outdated) false).1.text_buffers
      = sampleRenderer.text_buffers
    ∧ RenderEffect.appExit
        ∈ (RendererState.render sampleRenderer
            (Except.error SurfaceError.lost) false).2 :=
  ⟨((render_acquire_failure_policy sampleRenderer SurfaceError.outdated
      false).1 rfl).2.1,
   ((render_acquire_failure_policy sampleRenderer SurfaceError.lost false).2
      (by decide)).2.1⟩

/-- Claim C5: every frame that is not skipped records, in order: the
acquire, then both camera uniform writes (UI then world) before any pass
begins, then the world pass (color and depth cleared) in which every
registered terrain is drawn, strictly before the UI pass (existing color
loaded, no depth attachment) in which every buffered text is drawn, then
submit and present. -/
theorem render_frame_sequence (st : RendererState)
    (acquire : Except SurfaceError Unit) (d : Bool)
    (h : acquire = Except.ok ()) :
    (RendererState.render st acquire d).2
      = (if st.is_surface_configured then ([] : List RenderEffect)
         else [RenderEffect.configureSurface (st.config_width, st.config_height)])
        ++ [RenderEffect.acquireFrame,
            RenderEffect.writeUiCamera,
            RenderEffect.writeMainCamera,
            RenderEffect.beginRenderPass true true]
        ++ (st.terrain_buffers.flatMap fun buffer =>
              (RendererState.terrainPassCmds st d buffer).map
                RenderEffect.terrainCmd)
        ++ [RenderEffect.endRenderPass,
            RenderEffect.beginRenderPass false false]
        ++ ((List.range st.text_buffers.length).map RenderEffect.drawText)
        ++ [RenderEffect.endRenderPass, RenderEffect.submit,
            RenderEffect.present] := by
  subst h
  by_cases hc : st.is_surface_configured <;>
    simp [RendererState.render, RendererState.terrainPassCmds, hc]

theorem render_frame_sequence_witness :
    (RendererState.render sampleRenderer (Except.ok ()) false).2.count
        RenderEffect.present = 1
    ∧ (RendererState.render sampleRenderer (Except.ok ()) false).2.count
        RenderEffect.writeUiCamera = 1 := by
  rw [render_frame_sequence sampleRenderer (Except.ok ()) false rfl]
  constructor <;> decide

/-- Claim C6: `resize(width, height)` marks the surface configured,
reconfigures it to extent `(max(width,1), max(height,1))` — zero extents
are clamped to the 1×1 minimum — and recreates the depth target at that
same extent while keeping the depth format it had before the call. -/
theorem resize_clamps_and_preserves_depth_format (st : RendererState)
    (width height : Nat) :
    (st.resize width height).is_surface_configured = true
    ∧ (st.resize width height).surface_extent = (max width 1, max height 1)
    ∧ (st.resize width height).depth_extent = (max width 1, max height 1)
    ∧ (st.resize width height).depth_format = st.depth_format :=
  ⟨rfl, rfl, rfl, rfl⟩

/-- Claim C7 counterexample: at viewport extents (2, 2) the 2-D camera's
view-projection carries the world origin (0, 0) to NDC (-1, -1) — the
bottom-left corner of the render target in wgpu's coordinate system — and
not to the top-left corner (-1, 1) the claim names. -/
theorem camera2d_origin_not_top_left :
    ndcOfPoint (Camera2d.view_proj { width := 2, height := 2 }) 0 0
      ≠ ndcTopLeft := by
  simp only [Camera2d.view_proj, Camera2d.proj, Camera2d.view,
    Mat4.orthographic_rh, Mat4.identity, Mat4.mul, Mat4.mulVec4,
    Vec4.smul, Vec4.add, ndcOfPoint, ndcTopLeft, Prod.mk.injEq, ne_eq]
  norm_num

/-- Claim C7 (amended): the 2-D UI camera with viewport extents `(w, h)`
produces an orthographic view-projection whose origin is the bottom-left of
the viewport: world point (0, 0) maps to the bottom-left corner of the
render target and `(w, h)` maps to the top-right, with the view matrix
being the identity. -/
theorem camera2d_origin_bottom_left (w h : ℚ) (hw : 0 < w) (hh : 0 < h) :
    Camera2d.view { width := w, height := h } = Mat4.identity
    ∧ ndcOfPoint (Camera2d.view_proj { width := w, height := h }) 0 0
        = ndcBottomLeft
    ∧ ndcOfPoint (Camera2d.view_proj { width := w, height := h }) w h
        = ndcTopRight := by
  have hw0 : w ≠ 0 := ne_of_gt hw
  have hh0 : h ≠ 0 := ne_of_gt hh
  refine ⟨rfl, ?_, ?_⟩ <;>
    · simp only [Camera2d.view_proj, Camera2d.proj, Camera2d.view,
        Mat4.orthographic_rh, Mat4.identity, Mat4.mul, Mat4.mulVec4,
        Vec4.smul, Vec4.add, ndcOfPoint, ndcBottomLeft, ndcTopRight,
        Prod.mk.injEq]
      constructor <;> field_simp

theorem camera2d_origin_bottom_left_witness :
    (0 : ℚ) < 2
    ∧ (Camera2d.view { width := 2, height := 2 } = Mat4.identity
      ∧ ndcOfPoint (Camera2d.view_proj { width := 2, height := 2 }) 0 0
          = ndcBottomLeft
      ∧ ndcOfPoint (Camera2d.view_proj { width := 2, height := 2 }) 2 2
          = ndcTopRight) :=
  ⟨by norm_num, camera2d_origin_bottom_left 2 2 (by norm_num) (by norm_num)⟩

/-- A CPU-visible buffer operation: the three ways the source resets or
extends a `BackedBuffer` between frames (spec section 4.1). -/
inductive BufferOp (α : Type) where
  | clear
  | replace (xs : List α)
  | batch (xs : List α)

/-- Run one buffer operation. -/
def applyOp (b : BackedBuffer α) : BufferOp α → BackedBuffer α
  | BufferOp.clear => b.clear
  | BufferOp.replace xs => b.replace xs
  | BufferOp.batch xs => b.batchAppend xs

/-- Run a sequence of buffer operations. -/
def applyOps (b : BackedBuffer α) (ops : List (BufferOp α)) : BackedBuffer α :=
  ops.foldl applyOp b

/-- The abstract element sequence a buffer should hold after a run of
operations: a `clear` or `replace` resets it, a `batch` appends its pushes
in order. -/
def trackedContents (cur : List α) : List (BufferOp α) → List α
  | [] => cur
  | BufferOp.clear :: ops => trackedContents [] ops
  | BufferOp.replace xs :: ops => trackedContents xs ops
  | BufferOp.batch xs :: ops => trackedContents (cur ++ xs) ops

/-- Claim C8: for every buffer and every sequence of batch-append cursors
(interleaved with clears and replaces), after each cursor closes the length
equals the number of elements pushed since the most recent clear or
replace, and the first `length` slots of the CPU mirror are exactly the
pushed values in push order — capacity growth preserves previously written
elements. -/
theorem batch_append_tracks_pushes {α : Type} (b : BackedBuffer α)
    (cur : List α) (ops : List (BufferOp α)) (hwf : b.wf)
    (hcur : b.contents = cur.map some) :
    (applyOps b ops).wf
    ∧ (applyOps b ops).length = (trackedContents cur ops).length
    ∧ (applyOps b ops).contents = (trackedContents cur ops).map some := by
  induction ops generalizing b cur with
  | nil =>
    refine ⟨hwf, ?_, hcur⟩
    obtain ⟨h1, h2⟩ := hwf
    have : b.contents.length = b.length := by
      simp [BackedBuffer.contents]
      omega
    rw [hcur] at this
    simpa [applyOps, trackedContents] using this.symm
  | cons op ops ih =>
    cases op with
    | clear =>
      have hwf2 := BackedBuffer.wf_clear b hwf
      have hc2 : b.clear.contents = ([] : List α).map some := by
        simp [BackedBuffer.contents_clear]
      simpa [applyOps, applyOp, trackedContents] using ih b.clear [] hwf2 hc2
    | replace xs =>
      have hwf2 := BackedBuffer.wf_replace b xs hwf
      have hc2 : (b.replace xs).contents = xs.map some :=
        BackedBuffer.contents_replace b xs hwf
      simpa [applyOps, applyOp, trackedContents] using
        ih (b.replace xs) xs hwf2 hc2
    | batch xs =>
      have hwf2 := BackedBuffer.wf_batchAppend b xs hwf
      have hc2 : (b.batchAppend xs).contents = (cur ++ xs).map some := by
        rw [BackedBuffer.contents_batchAppend b xs hwf, hcur]
        simp
      simpa [applyOps, applyOp, trackedContents] using
        ih (b.batchAppend xs) (cur ++ xs) hwf2 hc2

theorem batch_append_tracks_pushes_witness :
    (BackedBuffer.with_capacity 1 : BackedBuffer Nat).wf
    ∧ ((applyOps (BackedBuffer.with_capacity 1)
          [BufferOp.batch [5, 6, 7], BufferOp.clear, BufferOp.batch [8],
           BufferOp.replace [1, 2], BufferOp.batch [3]]).wf
      ∧ (applyOps (BackedBuffer.with_capacity 1)
          [BufferOp.batch [5, 6, 7], BufferOp.clear, BufferOp.batch [8],
           BufferOp.replace [1, 2], BufferOp.batch [3]]).length
        = (trackedContents []
            [BufferOp.batch [5, 6, 7], BufferOp.clear, BufferOp.batch [8],
             BufferOp.replace [1, 2], BufferOp.batch [3]]).length
      ∧ (applyOps (BackedBuffer.with_capacity 1)
          [BufferOp.batch [5, 6, 7], BufferOp.clear, BufferOp.batch [8],
           BufferOp.replace [1, 2], BufferOp.batch [3]]).contents
        = (trackedContents []
            [BufferOp.batch [5, 6, 7], BufferOp.clear, BufferOp.batch [8],
             BufferOp.replace [1, 2], BufferOp.batch [3]]).map some) :=
  ⟨BackedBuffer.wf_with_capacity 1,
   batch_append_tracks_pushes (BackedBuffer.with_capacity 1) []
     [BufferOp.batch [5, 6, 7], BufferOp.clear, BufferOp.batch [8],
      BufferOp.replace [1, 2], BufferOp.batch [3]]
     (BackedBuffer.wf_with_capacity 1) (by decide)⟩

/-- Claim C9: the terrain and text registries are append-only —
`buffer_terrain` and `buffer_text` return an id equal to the number of
elements previously registered, extend the registry by exactly one entry
associated to the returned id, and leave every previously registered buffer
and its id-to-buffer association unchanged. -/
theorem registries_append_only (st : RendererState) (terrain : Terrain)
    (text : String) :
    (st.buffer_terrain terrain).2 = st.terrain_buffers.length
    ∧ (st.buffer_terrain terrain).1.terrain_buffers.length
        = st.terrain_buffers.length + 1
    ∧ (∀ i, i < st.terrain_buffers.length →
        (st.buffer_terrain terrain).1.terrain_buffers[i]?
          = st.terrain_buffers[i]?)
    ∧ (st.buffer_terrain terrain).1.terrain_buffers[(st.buffer_terrain terrain).2]?
        = some (TerrainBuffer.new st.terrain_buffers.length terrain.tile_size
            terrain.mountain_height terrain.dune_height terrain.spire_height)
    ∧ (st.buffer_text text).2 = st.text_buffers.length
    ∧ (st.buffer_text text).1.text_buffers.length = st.text_buffers.length + 1
    ∧ (∀ i, i < st.text_buffers.length →
        (st.buffer_text text).1.text_buffers[i]? = st.text_buffers[i]?)
    ∧ (st.buffer_text text).1.text_buffers[(st.buffer_text text).2]?
        = some { text := text } := by
  refine ⟨rfl, by simp [RendererState.buffer_terrain], ?_, ?_, rfl,
    by simp [RendererState.buffer_text], ?_, ?_⟩
  · intro i hi
    simp [RendererState.buffer_terrain, List.getElem?_append, hi]
  · simp [RendererState.buffer_terrain]
  · intro i hi
    simp [RendererState.buffer_text, List.getElem?_append, hi]
  · simp [RendererState.buffer_text]

theorem registries_append_only_witness :
    (sampleRenderer.buffer_terrain sampleTerrain).2
        = sampleRenderer.terrain_buffers.length
    ∧ 0 < sampleRenderer.terrain_buffers.length
    ∧ (sampleRenderer.buffer_terrain sampleTerrain).1.terrain_buffers[0]?
        = sampleRenderer.terrain_buffers[0]? :=
  ⟨(registries_append_only sampleRenderer sampleTerrain "x").1,
   by decide,
   (registries_append_only sampleRenderer sampleTerrain "x").2.2.1 0 (by decide)⟩

/-- Claim C10: for any id at or beyond the registry length (hence never
returned by the registration calls), `update_terrain` and `update_text`
fail by indexing out of bounds (a Rust panic, modelled as `none`) instead
of returning an error — a valid handle is an unchecked precondition. -/
theorem update_with_stale_id_panics (st : RendererState)
    (terrain_id text_id : Nat) (terrain : Terrain) (text : String)
    (h1 : st.terrain_buffers.length ≤ terrain_id)
    (h2 : st.text_buffers.length ≤ text_id) :
    RendererState.update_terrain st terrain_id terrain = none
    ∧ RendererState.update_text st text_id text = none := by
  constructor
  · simp [RendererState.update_terrain, List.getElem?_eq_none h1]
  · simp [RendererState.update_text, List.getElem?_eq_none h2]

theorem update_with_stale_id_panics_witness :
    sampleRenderer.terrain_buffers.length ≤ 5
    ∧ sampleRenderer.text_buffers.length ≤ 7
    ∧ (RendererState.update_terrain sampleRenderer 5 sampleTerrain = none
      ∧ RendererState.update_text sampleRenderer 7 "x" = none) :=
  ⟨by decide, by decide,
   update_with_stale_id_panics sampleRenderer 5 7 sampleTerrain "x"
     (by decide) (by decide)⟩

end Dirt
